import Mathlib

/-!
Shallow embedding of the provider-orchestration core of the
AI-Chalkboard-Art repository:

* `src/functions/lib/api-manager.ts` — `APIManager` (provider discovery,
  ranking, health bookkeeping, status reporting);
* `src/functions/lib/image-generator.ts` — `ImageGenerator` (pre-flight
  validation, family dispatch, the sequential fallback loop and its trace).

Timestamps are `Nat` milliseconds.  JavaScript `||` defaulting, string
truthiness and `String.prototype.trim` are modelled explicitly.  The
provider-family network calls are abstracted into an `Adapter` oracle; the
loop itself is deterministic given that oracle.
-/

namespace Chalkboard

/-- JS `x || d` for strings: `undefined` and the empty string fall back. -/
def jsOrStr (o : Option String) (d : String) : String :=
  match o with
  | none => d
  | some s => if s = "" then d else s

/-- JS `x || d` for integers (`config.priority || 5`): `undefined` and `0`
fall back to the default. -/
def jsOrInt (o : Option Int) (d : Int) : Int :=
  match o with
  | none => d
  | some p => if p = 0 then d else p

/-- Whitespace as stripped by JS `String.prototype.trim`. -/
def isSpaceChar (c : Char) : Bool :=
  c == ' ' || c == '\t' || c == '\n' || c == '\r'

/-- Embedding of JS `String.prototype.trim`: strip whitespace from both
ends. -/
def jsTrim (s : String) : String :=
  ⟨((s.data.dropWhile isSpaceChar).reverse.dropWhile isSpaceChar).reverse⟩

/-- One record of `APIManager.providerStats` (api-manager.ts:44):
`{ lastUsed: number; errorCount: number }`. -/
structure ProviderStats where
  lastUsed : Nat
  errorCount : Nat
deriving DecidableEq, Repr

/-- The in-memory `providerStats` map, keyed by provider id. -/
abbrev StatsMap := List (String × ProviderStats)

/-- `providerStats.get(id)`. -/
def statsGet (m : StatsMap) (id : String) : Option ProviderStats :=
  match m with
  | [] => none
  | (k, v) :: rest => if k = id then some v else statsGet rest id

/-- `providerStats.set(id, v)`. -/
def statsSet (m : StatsMap) (id : String) (v : ProviderStats) : StatsMap :=
  match m with
  | [] => [(id, v)]
  | (k, w) :: rest => if k = id then (k, v) :: rest else (k, w) :: statsSet rest id v

/-- The environment bindings consulted by `APIManager` (types.ts `Env`);
`none` models an unset variable. -/
structure Env where
  GEMINI_API_KEY : Option String
  AI_MODEL_URL : Option String
  AI_MODEL_NAME : Option String
deriving DecidableEq, Repr

/-- One entry of `admin_config.api_configs` as read back from KV storage.
The JSON is untrusted, hence the optional fields. -/
structure AdminApiConfig where
  name : String
  provider : Option String
  key : Option String
  url : Option String
  enabled : Bool
  priority : Option Int
  model : Option String
deriving DecidableEq, Repr

/-- The `APIProvider` descriptor of api-manager.ts:8-21 (`type` is spelled
`ptype`; the unused `rateLimit` field is omitted). -/
structure APIProvider where
  id : String
  name : String
  provider : String
  ptype : String
  key : String
  baseUrl : Option String
  enabled : Bool
  priority : Int
  lastUsed : Option Nat
  errorCount : Option Nat
  model : Option String
deriving DecidableEq, Repr

/-- The environment-supplied Gemini descriptor pushed by
`getAvailableProviders` (api-manager.ts:60-70): fixed id, priority 1,
defaulted endpoint and model, no stats fields. -/
def envProvider (e : Env) (geminiKey : String) : APIProvider :=
  { id := "gemini-env"
    name := "Google Gemini"
    provider := "gemini"
    ptype := "env"
    key := jsTrim geminiKey
    baseUrl := some (jsOrStr e.AI_MODEL_URL "https://generativelanguage.googleapis.com/v1beta/models")
    enabled := true
    priority := 1
    lastUsed := none
    errorCount := none
    model := some (jsOrStr e.AI_MODEL_NAME "gemini-3-pro-image-preview") }

/-- The admission test applied to an admin entry (api-manager.ts:81):
`config.enabled && config.name && config.key && config.key.trim().length > 0`. -/
def adminIncluded (c : AdminApiConfig) : Bool :=
  c.enabled && !(c.name == "") &&
    (match c.key with
     | some k => decide (0 < (jsTrim k).length)
     | none => false)

/-- The derived id of an admin entry (api-manager.ts:82), where `i` is the
entry's index in `api_configs`. -/
def adminProviderId (i : Nat) (c : AdminApiConfig) : String :=
  jsOrStr c.provider "custom" ++ "-" ++ c.name ++ "-" ++ toString i

/-- The descriptor pushed for an admitted admin entry
(api-manager.ts:83-95). -/
def adminProvider (stats : StatsMap) (i : Nat) (c : AdminApiConfig) : APIProvider :=
  { id := adminProviderId i c
    name := c.name
    provider := jsOrStr c.provider "custom"
    ptype := "config"
    key := jsTrim (c.key.getD "")
    baseUrl := c.url
    enabled := true
    priority := jsOrInt c.priority 5
    lastUsed := (statsGet stats (adminProviderId i c)).map ProviderStats.lastUsed
    errorCount := some (((statsGet stats (adminProviderId i c)).map ProviderStats.errorCount).getD 0)
    model := c.model }

/-- Insert `x` behind every element the comparator does not place it
strictly before, matching the stable ordering of JS
`Array.prototype.sort`. -/
def insertCmp (cmp : α → α → Int) (x : α) : List α → List α
  | [] => [x]
  | y :: ys => if cmp x y < 0 then x :: y :: ys else y :: insertCmp cmp x ys

/-- Stable sort by a JS-style comparator (negative means "before"). -/
def sortByCmp (cmp : α → α → Int) (l : List α) : List α :=
  l.foldl (fun acc x => insertCmp cmp x acc) []

/-- The three-key comparator of `getAvailableProviders`
(api-manager.ts:106-119): priority, then `lastUsed || 0`, then
`errorCount || 0`. -/
def providerCmp (a b : APIProvider) : Int :=
  if a.priority ≠ b.priority then a.priority - b.priority
  else if a.lastUsed.getD 0 ≠ b.lastUsed.getD 0 then
    (a.lastUsed.getD 0 : Int) - (b.lastUsed.getD 0 : Int)
  else (a.errorCount.getD 0 : Int) - (b.errorCount.getD 0 : Int)

/-- The environment part of the candidate list (api-manager.ts:58-72). -/
def envCandidates (e : Env) : List APIProvider :=
  match e.GEMINI_API_KEY with
  | some k => if 0 < (jsTrim k).length then [envProvider e k] else []
  | none => []

/-- The admin part of the candidate list (api-manager.ts:75-103):
`adminCfg = none` covers an absent `admin_config` value, a JSON parse
failure, and a missing `api_configs` array alike. -/
def adminCandidates (adminCfg : Option (List AdminApiConfig)) (stats : StatsMap) : List APIProvider :=
  match adminCfg with
  | some cfgs =>
    cfgs.enum.filterMap fun q =>
      if adminIncluded q.2 then some (adminProvider stats q.1 q.2) else none
  | none => []

/-- `APIManager.getAvailableProviders` (api-manager.ts:54-125): merge the
environment descriptor with the admitted admin entries, then sort with the
three-key comparator. -/
def getAvailableProviders (e : Env) (adminCfg : Option (List AdminApiConfig)) (stats : StatsMap) : List APIProvider :=
  sortByCmp providerCmp (envCandidates e ++ adminCandidates adminCfg stats)

/-- `APIManager.selectBestProvider` (api-manager.ts:131-166): drop
providers whose key is excluded, disabled ones, and those with three or
more consecutive errors; return the first survivor. -/
def selectBestProvider (e : Env) (adminCfg : Option (List AdminApiConfig)) (stats : StatsMap) (excludeKeys : List String) : Option APIProvider :=
  let providers := getAvailableProviders e adminCfg stats
  let validProviders := providers.filter fun p =>
    !(excludeKeys.contains p.key) && p.enabled && decide (p.errorCount.getD 0 < 3)
  validProviders.head?

/-- `APIManager.updateProviderStats` (api-manager.ts:171-189): `now` stands
for `Date.now()`, which the code consults only on success; on failure the
stored `lastUsed` is carried over unchanged. -/
def updateProviderStats (stats : StatsMap) (providerId : String) (success : Bool) (now : Nat) : StatsMap :=
  let current := (statsGet stats providerId).getD ⟨0, 0⟩
  if success then statsSet stats providerId ⟨now, 0⟩
  else statsSet stats providerId ⟨current.lastUsed, current.errorCount + 1⟩

/-- `APIManager.getProviderStatus` (api-manager.ts:213-222). -/
def getProviderStatus (provider : APIProvider) : String :=
  if provider.errorCount.getD 0 ≥ 3 then "failed"
  else if provider.errorCount.getD 0 > 0 then "warning"
  else "healthy"

/-- One element of the list built by `APIManager.getProviderStatuses`
(api-manager.ts:197-207). -/
structure ProviderStatusEntry where
  id : String
  name : String
  provider : String
  ptype : String
  enabled : Bool
  priority : Int
  lastUsed : Option Nat
  errorCount : Nat
  status : String
deriving DecidableEq, Repr

/-- `APIManager.getProviderStatuses` (api-manager.ts:194-208). -/
def getProviderStatuses (e : Env) (adminCfg : Option (List AdminApiConfig)) (stats : StatsMap) : List ProviderStatusEntry :=
  (getAvailableProviders e adminCfg stats).map fun p =>
    { id := p.id, name := p.name, provider := p.provider, ptype := p.ptype
      enabled := p.enabled, priority := p.priority, lastUsed := p.lastUsed
      errorCount := p.errorCount.getD 0, status := getProviderStatus p }

/-- `APIManager.resetProviderError` (api-manager.ts:227-234). -/
def resetProviderError (stats : StatsMap) (providerId : String) : StatsMap :=
  let current := (statsGet stats providerId).getD ⟨0, 0⟩
  statsSet stats providerId ⟨current.lastUsed, 0⟩

/-- `APIManager.cleanupStats` (api-manager.ts:239-252): reset error counts
of records whose `lastUsed` lies more than 30 minutes in the past.  JS
`now - stats.lastUsed` is negative when `lastUsed` is in the future and
then fails the comparison, exactly as truncated `Nat` subtraction does. -/
def cleanupStats (stats : StatsMap) (now : Nat) : StatsMap :=
  stats.map fun entry =>
    if 0 < entry.2.errorCount ∧ 30 * 60 * 1000 < now - entry.2.lastUsed then
      (entry.1, ⟨entry.2.lastUsed, 0⟩)
    else entry

/-- `ImageGenerator.validateProviderConfig` (image-generator.ts:189-201):
`some msg` is the message of the thrown error. -/
def validateProviderConfig (provider : APIProvider) : Option String :=
  if (jsTrim provider.key).length = 0 then
    some ("提供商 " ++ provider.name ++ " 缺少API密钥")
  else if (jsTrim (provider.baseUrl.getD "")).length = 0 then
    some ("提供商 " ++ provider.name ++ " 缺少基础URL")
  else if (jsTrim (provider.model.getD "")).length = 0 then
    some ("提供商 " ++ provider.name ++ " 缺少模型名称")
  else none

deriving instance DecidableEq for Except

/-- The outcome of one provider-family network call (the effect of
`tryGemini` / `tryGrok` / `tryCustom`): `Except.error` carries the thrown
message, `Except.ok` the returned image buffer, abstracted to `Nat`. -/
abbrev Adapter := APIProvider → Except String Nat

/-- `ImageGenerator.tryProvider` (image-generator.ts:168-184): pre-flight
validation, then dispatch on the provider family. -/
def tryProvider (adapter : Adapter) (provider : APIProvider) : Except String Nat :=
  match validateProviderConfig provider with
  | some msg => Except.error msg
  | none =>
    if provider.provider = "gemini" then adapter provider
    else if provider.provider = "grok" then adapter provider
    else if provider.provider = "custom" then adapter provider
    else Except.error ("未知的提供商类型: " ++ provider.provider)

/-- Modelled from the spec: `APIManager.temporarilyDisableProvider` is
invoked at image-generator.ts:126 with a 60000 ms window but is not defined
anywhere in the sources.  Per the spec (§4.2, §4.3) disabling a provider
records `disabledUntil = now + durationMs` for its id. -/
def temporarilyDisableProvider (disabled : List (String × Nat)) (providerId : String) (now durationMs : Nat) : List (String × Nat) :=
  (providerId, now + durationMs) :: disabled.filter fun entry => !(entry.1 == providerId)

/-- One element of the `allAttempts` trace built by
`generateImageWithFallback` (image-generator.ts:68-74); the wall-clock
fields (`id`, `startTime`, `duration`) are omitted. -/
structure Attempt where
  provider : String
  providerType : String
  priority : Int
  success : Bool
  error : Option String
deriving DecidableEq, Repr

/-- The `GenerationResult` of image-generator.ts:11-17, with the
`debug.attempts` trace kept as `attempts`. -/
structure GenerationResult where
  success : Bool
  imageBuffer : Option Nat
  provider : Option String
  error : Option String
  attempts : List Attempt
deriving DecidableEq, Repr

/-- Health and disable bookkeeping threaded through one orchestration
run. -/
structure GenState where
  stats : StatsMap
  disabled : List (String × Nat)
deriving DecidableEq, Repr

/-- The failed-attempt trace entry (image-generator.ts:104-107). -/
def failAttempt (p : APIProvider) (e : String) : Attempt :=
  { provider := p.name, providerType := p.provider, priority := p.priority
    success := false, error := some e }

/-- The successful-attempt trace entry (image-generator.ts:80-82). -/
def successAttempt (p : APIProvider) : Attempt :=
  { provider := p.name, providerType := p.provider, priority := p.priority
    success := true, error := none }

/-- State update after a failed attempt (image-generator.ts:122-126):
record the failure and apply the (spec-modelled) 60-second disable. -/
def stateAfterFailure (st : GenState) (p : APIProvider) (now : Nat) : GenState :=
  { stats := updateProviderStats st.stats p.id false now
    disabled := temporarilyDisableProvider st.disabled p.id now 60000 }

/-- The two-key comparator `generateImageWithFallback` re-sorts with
(image-generator.ts:50-57): priority, then `errorCount || 0`. -/
def fallbackCmp (a b : APIProvider) : Int :=
  if a.priority ≠ b.priority then a.priority - b.priority
  else (a.errorCount.getD 0 : Int) - (b.errorCount.getD 0 : Int)

/-- The candidate loop of `generateImageWithFallback`
(image-generator.ts:62-147): the first success returns immediately;
exhaustion reports only the last error in the `error` string. -/
def runAttempts (adapter : Adapter) (now : Nat) :
    List APIProvider → GenState → List Attempt → Option String → GenerationResult × GenState
  | [], st, attempts, lastError =>
    ({ success := false, imageBuffer := none, provider := none
       error := some ("所有API提供商都失败了。最后错误: " ++ lastError.getD "undefined")
       attempts := attempts }, st)
  | p :: rest, st, attempts, lastError =>
    match tryProvider adapter p with
    | Except.ok img =>
      ({ success := true, imageBuffer := some img, provider := some p.name
         error := none, attempts := attempts ++ [successAttempt p] },
       { st with stats := updateProviderStats st.stats p.id true now })
    | Except.error err =>
      runAttempts adapter now rest (stateAfterFailure st p now)
        (attempts ++ [failAttempt p err]) (some err)

/-- `ImageGenerator.generateImageWithFallback` (image-generator.ts:33-163):
rank via `getAvailableProviders`, re-sort with the two-key comparator, then
try each candidate in order.  The method's signature takes only the
prompt: the options object some callers pass (exclusion keys, trace,
cancellation signal) is not a parameter and is ignored.  An empty provider
list throws `没有配置任何API提供商`, caught by the outer system-error
handler (image-generator.ts:45-47, 149-162). -/
def generateImageWithFallback (adapter : Adapter) (now : Nat) (e : Env)
    (adminCfg : Option (List AdminApiConfig)) (stats : StatsMap) : GenerationResult × GenState :=
  let providers := getAvailableProviders e adminCfg stats
  if providers.isEmpty then
    ({ success := false, imageBuffer := none, provider := none
       error := some "系统错误: 没有配置任何API提供商", attempts := [] },
     { stats := stats, disabled := [] })
  else
    runAttempts adapter now (sortByCmp fallbackCmp providers)
      { stats := stats, disabled := [] } [] none

/-- `chars` starts with `target`. -/
def startsWithChars : List Char → List Char → Bool
  | _, [] => true
  | [], _ :: _ => false
  | c :: cs, d :: ds => c == d && startsWithChars cs ds

/-- `target` occurs contiguously inside `chars`. -/
def hasSubChars : List Char → List Char → Bool
  | [], target => startsWithChars [] target
  | c :: cs, target => startsWithChars (c :: cs) target || hasSubChars cs target

/-- The reading of "the error text mentions X" used by the spec: `sub`
occurs as a contiguous substring of `s`. -/
def mentions (s sub : String) : Bool :=
  hasSubChars s.data sub.data

/-! Concrete fixtures used by counterexamples and witnesses. -/

/-- Environment with no Gemini key configured. -/
def envNone : Env :=
  { GEMINI_API_KEY := none, AI_MODEL_URL := none, AI_MODEL_NAME := none }

/-- Environment with a Gemini key `gk`. -/
def envWithKey : Env :=
  { GEMINI_API_KEY := some "gk", AI_MODEL_URL := none, AI_MODEL_NAME := none }

/-- Well-formed admin entry `Alpha`, priority 1. -/
def cfgAlpha : AdminApiConfig :=
  { name := "Alpha", provider := some "custom", key := some "ka"
    url := some "http://a", enabled := true, priority := some 1, model := some "ma" }

/-- Well-formed admin entry `Beta`, priority 2. -/
def cfgBeta : AdminApiConfig :=
  { name := "Beta", provider := some "custom", key := some "kb"
    url := some "http://b", enabled := true, priority := some 2, model := some "mb" }

/-- Well-formed admin entry `Gamma`, priority 3. -/
def cfgGamma : AdminApiConfig :=
  { name := "Gamma", provider := some "custom", key := some "kc"
    url := some "http://c", enabled := true, priority := some 3, model := some "mc" }

/-- Admin entry `G` of family `grok`; its derived id is `grok-G-0` when it
sits at index 0, distinct from its key `KEY`. -/
def cfgGrok : AdminApiConfig :=
  { name := "G", provider := some "grok", key := some "KEY"
    url := some "http://g", enabled := true, priority := some 1, model := some "mg" }

/-- Admin entry whose stored priority is below the 1-10 range. -/
def cfgNegPriority : AdminApiConfig :=
  { name := "Neg", provider := some "custom", key := some "kn"
    url := some "http://n", enabled := true, priority := some (-1), model := some "mn" }

/-- Enabled admin entry with name and key but no model. -/
def cfgNoModel : AdminApiConfig :=
  { name := "M", provider := some "custom", key := some "km"
    url := some "http://m", enabled := true, priority := some 4, model := none }

/-- Stats giving the `grok-G-0` descriptor three consecutive errors. -/
def statsThreeErrors : StatsMap := [("grok-G-0", ⟨0, 3⟩)]

/-- Adapter whose every network call fails. -/
def alwaysFail : Adapter := fun _ => Except.error "network error"

/-- Adapter failing with a per-provider message. -/
def namedFail : Adapter := fun p => Except.error ("fail " ++ p.name)

/-- Adapter succeeding exactly on provider `Beta`. -/
def betaWins : Adapter :=
  fun p => if p.name == "Beta" then Except.ok 7 else Except.error ("fail " ++ p.name)

/-- The status entry reported for `cfgGrok` under `statsThreeErrors`. -/
def entryG : ProviderStatusEntry :=
  { id := "grok-G-0", name := "G", provider := "grok", ptype := "config"
    enabled := true, priority := 1, lastUsed := some 0, errorCount := 3
    status := "failed" }

/-! Helper lemmas about the sorting, lookup and trimming combinators. -/

lemma mem_insertCmp {cmp : α → α → Int} {x a : α} :
    ∀ {l : List α}, a ∈ insertCmp cmp x l ↔ a = x ∨ a ∈ l
  | [] => by simp [insertCmp]
  | y :: ys => by
    rw [insertCmp]
    split
    · simp
    · rw [List.mem_cons, List.mem_cons, mem_insertCmp]
      tauto

lemma mem_foldl_insertCmp {cmp : α → α → Int} {a : α} :
    ∀ (l acc : List α),
      a ∈ l.foldl (fun acc x => insertCmp cmp x acc) acc ↔ a ∈ acc ∨ a ∈ l
  | [], acc => by simp
  | x :: xs, acc => by
    rw [List.foldl_cons, mem_foldl_insertCmp xs, mem_insertCmp]
    simp
    tauto

lemma mem_sortByCmp {cmp : α → α → Int} {a : α} {l : List α} :
    a ∈ sortByCmp cmp l ↔ a ∈ l := by
  rw [sortByCmp, mem_foldl_insertCmp]
  simp

lemma foldl_insertCmp_cons {cmp : α → α → Int} (x : α) :
    ∀ (l t : List α), (∀ y ∈ l, ¬ cmp y x < 0) →
      l.foldl (fun acc y => insertCmp cmp y acc) (x :: t)
        = x :: l.foldl (fun acc y => insertCmp cmp y acc) t
  | [], t, _ => rfl
  | y :: ys, t, h => by
    rw [List.foldl_cons, List.foldl_cons, insertCmp,
      if_neg (h y (List.mem_cons_self y ys))]
    exact foldl_insertCmp_cons x ys (insertCmp cmp y t)
      fun z hz => h z (List.mem_cons_of_mem y hz)

lemma sortByCmp_cons_of_min {cmp : α → α → Int} (x : α) (l : List α)
    (h : ∀ y ∈ l, ¬ cmp y x < 0) :
    sortByCmp cmp (x :: l) = x :: sortByCmp cmp l := by
  rw [sortByCmp, sortByCmp, List.foldl_cons]
  exact foldl_insertCmp_cons x l [] h

lemma isEmpty_false_of_ne_nil {l : List α} (h : l ≠ []) : l.isEmpty = false := by
  cases l with
  | nil => exact absurd rfl h
  | cons a as => rfl

lemma statsGet_statsSet_self :
    ∀ (m : StatsMap) (id : String) (v : ProviderStats),
      statsGet (statsSet m id v) id = some v
  | [], id, v => by simp [statsSet, statsGet]
  | (k, w) :: rest, id, v => by
    rw [statsSet]
    split
    · rename_i hk
      rw [statsGet, if_pos hk]
    · rename_i hk
      rw [statsGet, if_neg hk]
      exact statsGet_statsSet_self rest id v

lemma snd_mem_of_mem_enumFrom {α : Type _} :
    ∀ (l : List α) (n : Nat) (q : Nat × α), q ∈ l.enumFrom n → q.2 ∈ l
  | [], _, _, h => by simp [List.enumFrom] at h
  | a :: as, n, q, h => by
    rw [List.enumFrom] at h
    rcases List.mem_cons.mp h with h | h
    · rw [h]
      exact List.mem_cons_self a as
    · exact List.mem_cons_of_mem a (snd_mem_of_mem_enumFrom as (n + 1) q h)

lemma snd_mem_of_mem_enum {α : Type _} {l : List α} {q : Nat × α}
    (h : q ∈ l.enum) : q.2 ∈ l :=
  snd_mem_of_mem_enumFrom l 0 q h

lemma mem_dropWhile_of_not {p : Char → Bool} {x : Char} :
    ∀ {l : List Char}, x ∈ l → p x = false → x ∈ l.dropWhile p
  | [], hx, _ => by simp at hx
  | c :: cs, hx, hp => by
    rw [List.dropWhile]
    cases hc : p c with
    | true =>
      rcases List.mem_cons.mp hx with h | h
      · rw [h] at hp
        rw [hp] at hc
        cases hc
      · exact mem_dropWhile_of_not h hp
    | false => exact hx

lemma mem_jsTrim_of_not_space {x : Char} {s : String}
    (hx : x ∈ s.data) (hp : isSpaceChar x = false) : x ∈ (jsTrim s).data := by
  rw [jsTrim]
  have h1 : x ∈ s.data.dropWhile isSpaceChar := mem_dropWhile_of_not hx hp
  have h2 : x ∈ (s.data.dropWhile isSpaceChar).reverse := List.mem_reverse.mpr h1
  have h3 : x ∈ (s.data.dropWhile isSpaceChar).reverse.dropWhile isSpaceChar :=
    mem_dropWhile_of_not h2 hp
  exact List.mem_reverse.mpr h3

/-! Helper lemmas about the fallback loop. -/

lemma runAttempts_all_fail (adapter : Adapter) (now : Nat) (errOf : APIProvider → String) :
    ∀ (candidates : List APIProvider) (st : GenState) (attempts : List Attempt)
      (lastError : Option String),
      (∀ p ∈ candidates, tryProvider adapter p = Except.error (errOf p)) →
      (runAttempts adapter now candidates st attempts lastError).1 =
        { success := false, imageBuffer := none, provider := none
          error := some ("所有API提供商都失败了。最后错误: " ++
            (match candidates.getLast? with
             | some q => errOf q
             | none => lastError.getD "undefined"))
          attempts := attempts ++ candidates.map fun p => failAttempt p (errOf p) }
  | [], st, attempts, lastError, _ => by
    simp [runAttempts]
  | p :: rest, st, attempts, lastError, h => by
    rw [runAttempts, h p (List.mem_cons_self p rest)]
    rw [runAttempts_all_fail adapter now errOf rest _ _ _
      fun q hq => h q (List.mem_cons_of_mem p hq)]
    cases rest with
    | nil => simp
    | cons r rs =>
      have hgl := List.getLast?_eq_getLast_of_ne_nil (List.cons_ne_nil r rs)
      simp [List.getLast?_cons_cons, hgl]

lemma runAttempts_first_success (adapter : Adapter) (now : Nat) (errOf : APIProvider → String)
    (img : Nat) (winner : APIProvider) :
    ∀ (front post : List APIProvider) (st : GenState) (attempts : List Attempt)
      (lastError : Option String),
      (∀ p ∈ front, tryProvider adapter p = Except.error (errOf p)) →
      tryProvider adapter winner = Except.ok img →
      (runAttempts adapter now (front ++ winner :: post) st attempts lastError).1 =
        { success := true, imageBuffer := some img, provider := some winner.name
          error := none
          attempts := attempts ++ (front.map fun p => failAttempt p (errOf p))
            ++ [successAttempt winner] }
  | [], post, st, attempts, lastError, _, hwin => by
    rw [List.nil_append, runAttempts, hwin]
    simp
  | p :: rest, post, st, attempts, lastError, h, hwin => by
    rw [List.cons_append, runAttempts, h p (List.mem_cons_self p rest)]
    rw [runAttempts_first_success adapter now errOf img winner rest post
      (stateAfterFailure st p now) (attempts ++ [failAttempt p (errOf p)])
      (some (errOf p)) (fun q hq => h q (List.mem_cons_of_mem p hq)) hwin]
    simp

/-! Claim theorems. -/

/-- C1: the claim says a provider with `consecutiveErrors >= 3` is dropped
from ranking for exactly 60 seconds and becomes eligible again afterwards.
On the code, with admin provider `G` at three errors: `selectBestProvider`
drops it, but the exclusion depends on no clock at all (no argument of the
function carries time, so nothing re-admits it 60 seconds later), while the
orchestrator `generateImageWithFallback` does not drop it in the first
place and attempts it.  The 60-second disable the code intends is a call to
`APIManager.temporarilyDisableProvider`, which is not defined anywhere in
the sources. -/
theorem c1_threshold_provider_attempted_and_breaker_untimed :
    selectBestProvider envNone (some [cfgGrok]) statsThreeErrors [] = none
    ∧ ((generateImageWithFallback alwaysFail 0 envNone (some [cfgGrok])
          statsThreeErrors).1.attempts.map Attempt.provider) = ["G"] := by
  constructor
  · rfl
  · rfl

/-- C2 counterexample: with the two all-failing candidates `Alpha` and
`Beta`, both are attempted and traced, but the aggregated `error` string of
the outcome carries only the last failure: it mentions neither `Alpha` nor
`Alpha`'s failure reason, refuting "mentions all N provider display names
together with each provider's specific failure reason". -/
theorem c2_aggregated_error_omits_earlier_failures :
    (generateImageWithFallback namedFail 0 envNone (some [cfgAlpha, cfgBeta]) []).1.error
        = some "所有API提供商都失败了。最后错误: fail Beta"
    ∧ ((generateImageWithFallback namedFail 0 envNone (some [cfgAlpha, cfgBeta]) []).1.attempts.map
          Attempt.provider) = ["Alpha", "Beta"]
    ∧ mentions "所有API提供商都失败了。最后错误: fail Beta" "Alpha" = false
    ∧ mentions "所有API提供商都失败了。最后错误: fail Beta" "fail Alpha" = false := by
  refine ⟨rfl, rfl, ?_, ?_⟩ <;> decide

/-- C2 (amended): for an all-failing ranked candidate list the trace has
exactly N `failed` entries in ranked order, but the aggregated error text
is the fixed prefix plus only the LAST candidate's failure reason, not the
full chain. -/
theorem c2_all_fail_trace_ranked_error_last_only (adapter : Adapter) (now : Nat) (e : Env)
    (adminCfg : Option (List AdminApiConfig)) (stats : StatsMap) (errOf : APIProvider → String)
    (hne : getAvailableProviders e adminCfg stats ≠ [])
    (hfail : ∀ p ∈ sortByCmp fallbackCmp (getAvailableProviders e adminCfg stats),
      tryProvider adapter p = Except.error (errOf p)) :
    (generateImageWithFallback adapter now e adminCfg stats).1 =
      { success := false, imageBuffer := none, provider := none
        error := some ("所有API提供商都失败了。最后错误: " ++
          (match (sortByCmp fallbackCmp (getAvailableProviders e adminCfg stats)).getLast? with
           | some q => errOf q
           | none => "undefined"))
        attempts := (sortByCmp fallbackCmp (getAvailableProviders e adminCfg stats)).map
          fun p => failAttempt p (errOf p) } := by
  rw [generateImageWithFallback]
  rw [isEmpty_false_of_ne_nil hne]
  simp only [Bool.false_eq_true, if_false]
  rw [runAttempts_all_fail adapter now errOf _ _ _ _ hfail]
  simp

/-- C2 witness: the amended statement evaluated on the concrete
`Alpha`/`Beta` all-failing configuration. -/
theorem c2_all_fail_trace_ranked_error_last_only_witness :
    (generateImageWithFallback namedFail 0 envNone (some [cfgAlpha, cfgBeta]) []).1 =
      { success := false, imageBuffer := none, provider := none
        error := some ("所有API提供商都失败了。最后错误: " ++
          (match (sortByCmp fallbackCmp (getAvailableProviders envNone
              (some [cfgAlpha, cfgBeta]) [])).getLast? with
           | some q => "fail " ++ q.name
           | none => "undefined"))
        attempts := (sortByCmp fallbackCmp (getAvailableProviders envNone
            (some [cfgAlpha, cfgBeta]) [])).map
          fun p => failAttempt p ("fail " ++ p.name) } :=
  c2_all_fail_trace_ranked_error_last_only namedFail 0 envNone (some [cfgAlpha, cfgBeta]) []
    (fun p => "fail " ++ p.name) (by decide) (by decide)

/-- C5 counterexample: recording a failure at `now = 100` for a provider
whose stored record is `{lastUsed := 5, errorCount := 0}` leaves `lastUsed`
at 5, refuting "sets its lastUsedAt to now"; the update also produces no
disable timestamp of any kind (the stats record has none). -/
theorem c5_failure_does_not_touch_lastUsed :
    updateProviderStats [("p", ⟨5, 0⟩)] "p" false 100 = [("p", ⟨5, 1⟩)]
    ∧ statsGet (updateProviderStats [("p", ⟨5, 0⟩)] "p" false 100) "p" ≠ some ⟨100, 1⟩ := by
  decide

/-- C5 (amended): recording a failure increments `errorCount` by exactly
one and carries the stored `lastUsed` over unchanged (`lastUsed` is written
only on success); no disable window is part of this update. -/
theorem c5_failure_increments_error_count_only (stats : StatsMap) (providerId : String)
    (now : Nat) :
    statsGet (updateProviderStats stats providerId false now) providerId =
      some ⟨((statsGet stats providerId).getD ⟨0, 0⟩).lastUsed,
            ((statsGet stats providerId).getD ⟨0, 0⟩).errorCount + 1⟩ := by
  rw [updateProviderStats]
  simp only [Bool.false_eq_true, if_false]
  exact statsGet_statsSet_self stats providerId _

/-- C9 counterexample: a provider whose last success was at time 0 fails at
time 100 (`lastUsed` stays 0); the sweep at time 1800001 resets its error
count although only 1799901 ms — less than 30 minutes — have passed since
the triggering failure, refuting "exactly ... more than 30 minutes past the
triggering failure". -/
theorem c9_reset_within_thirty_minutes_of_failure :
    cleanupStats (updateProviderStats [("p", ⟨0, 0⟩)] "p" false 100) 1800001
      = [("p", ⟨0, 0⟩)]
    ∧ 1800001 - 100 < 30 * 60 * 1000 := by
  decide

/-- C9 (amended): the sweep resets `errorCount` to 0 exactly for records
with a positive error count whose `lastUsed` — the time of the last
success, since failures do not update it — lies more than 30 minutes before
`now`; it leaves `lastUsed` itself unchanged and does not touch records
with zero errors. -/
theorem c9_cleanup_pointwise :
    ∀ (stats : StatsMap) (now : Nat) (id : String) (s : ProviderStats),
      statsGet stats id = some s →
      statsGet (cleanupStats stats now) id =
        some ⟨s.lastUsed,
              if 0 < s.errorCount ∧ 30 * 60 * 1000 < now - s.lastUsed then 0
              else s.errorCount⟩
  | [], now, id, s, h => by simp [statsGet] at h
  | (k, v) :: rest, now, id, s, h => by
    rw [statsGet] at h
    by_cases hk : k = id
    · rw [if_pos hk] at h
      injection h with hv
      subst hv
      simp only [cleanupStats, List.map_cons]
      by_cases hc : 0 < v.errorCount ∧ 30 * 60 * 1000 < now - v.lastUsed
      · rw [if_pos hc, statsGet, if_pos hk, if_pos hc]
      · rw [if_neg hc, statsGet, if_pos hk, if_neg hc]
    · rw [if_neg hk] at h
      have ih := c9_cleanup_pointwise rest now id s h
      simp only [cleanupStats, List.map_cons] at ih ⊢
      split
      · rw [statsGet, if_neg hk]
        exact ih
      · rw [statsGet, if_neg hk]
        exact ih

/-- C9 witness: the amended statement evaluated on a record with one error
whose `lastUsed` is 30 minutes and 1 ms in the past. -/
theorem c9_cleanup_pointwise_witness :
    statsGet (cleanupStats [("p", ⟨0, 1⟩)] 1800001) "p" =
      some ⟨(0 : Nat),
            if 0 < (1 : Nat) ∧ 30 * 60 * 1000 < 1800001 - (0 : Nat) then 0
            else (1 : Nat)⟩ :=
  c9_cleanup_pointwise [("p", ⟨0, 1⟩)] 1800001 "p" ⟨0, 1⟩ (by decide)

/-- C3: when the ranked candidate list splits as `front ++ winner :: post`
with every `front` attempt failing and `winner` succeeding,
`generateImageWithFallback` returns success attributed to `winner`, the
trace is exactly the failed `front` entries in order followed by one
success entry with nothing after it, and no `post` candidate contributes
anything (the conclusion holds whatever the adapter would do on `post`). -/
theorem c3_first_success_short_circuits (adapter : Adapter) (now : Nat) (e : Env)
    (adminCfg : Option (List AdminApiConfig)) (stats : StatsMap)
    (front post : List APIProvider) (winner : APIProvider)
    (errOf : APIProvider → String) (img : Nat)
    (hsplit : sortByCmp fallbackCmp (getAvailableProviders e adminCfg stats)
      = front ++ winner :: post)
    (hfront : ∀ p ∈ front, tryProvider adapter p = Except.error (errOf p))
    (hwin : tryProvider adapter winner = Except.ok img) :
    (generateImageWithFallback adapter now e adminCfg stats).1 =
      { success := true, imageBuffer := some img, provider := some winner.name
        error := none
        attempts := (front.map fun p => failAttempt p (errOf p))
          ++ [successAttempt winner] } := by
  have hne : getAvailableProviders e adminCfg stats ≠ [] := by
    intro hnil
    rw [hnil] at hsplit
    exact List.append_ne_nil_of_right_ne_nil front (List.cons_ne_nil winner post) hsplit.symm
  rw [generateImageWithFallback]
  rw [isEmpty_false_of_ne_nil hne]
  simp only [Bool.false_eq_true, if_false]
  rw [hsplit]
  rw [runAttempts_first_success adapter now errOf img winner front post _ _ _ hfront hwin]
  simp

/-- C3 witness: the theorem evaluated on the concrete `Alpha`, `Beta`,
`Gamma` configuration where `Alpha` fails and `Beta` succeeds; `Gamma` is
never attempted. -/
theorem c3_first_success_short_circuits_witness :
    (generateImageWithFallback betaWins 0 envNone (some [cfgAlpha, cfgBeta, cfgGamma]) []).1 =
      { success := true, imageBuffer := some 7
        provider := some (adminProvider [] 1 cfgBeta).name
        error := none
        attempts := ([adminProvider [] 0 cfgAlpha].map fun p => failAttempt p ("fail " ++ p.name))
          ++ [successAttempt (adminProvider [] 1 cfgBeta)] } :=
  c3_first_success_short_circuits betaWins 0 envNone (some [cfgAlpha, cfgBeta, cfgGamma]) []
    [adminProvider [] 0 cfgAlpha] [adminProvider [] 2 cfgGamma] (adminProvider [] 1 cfgBeta)
    (fun p => "fail " ++ p.name) 7 (by decide) (by decide) (by decide)

/-- C4 counterexample: the environment descriptor carries priority 1, not
the claimed 0, and an admin entry whose stored priority is below 1 sorts
before it, refuting "sorts before every admin-configured descriptor
regardless of the admin entries' stored priorities". -/
theorem c4_env_priority_is_one_and_can_rank_second :
    (envProvider envWithKey "gk").priority = 1
    ∧ (envProvider envWithKey "gk").priority ≠ 0
    ∧ getAvailableProviders envWithKey (some [cfgNegPriority]) []
        = [adminProvider [] 0 cfgNegPriority, envProvider envWithKey "gk"] := by
  refine ⟨rfl, by decide, by decide⟩

/-- C4 (amended): the environment descriptor is assigned priority 1 — the
most favorable value inside the 1-10 admin range, not 0 — so it heads the
ranking whenever every admin entry's effective priority
(`config.priority || 5`) is at least 2; admin entries can tie with it at
priority 1 or precede it with stored priorities below 1. -/
theorem c4_env_ranks_first_when_admin_priorities_exceed_one (e : Env) (k : String)
    (cfgs : List AdminApiConfig) (stats : StatsMap)
    (hk : e.GEMINI_API_KEY = some k) (hkt : 0 < (jsTrim k).length)
    (hp : ∀ c ∈ cfgs, 2 ≤ jsOrInt c.priority 5) :
    (envProvider e k).priority = 1
    ∧ (getAvailableProviders e (some cfgs) stats).head? = some (envProvider e k) := by
  refine ⟨rfl, ?_⟩
  have henv : envCandidates e = [envProvider e k] := by
    rw [envCandidates, hk]
    exact if_pos hkt
  have hmin : ∀ q ∈ adminCandidates (some cfgs) stats,
      ¬ providerCmp q (envProvider e k) < 0 := by
    intro q hq
    rw [adminCandidates] at hq
    obtain ⟨pair, hpair, hfq⟩ := List.mem_filterMap.mp hq
    by_cases hinc : adminIncluded pair.2 = true
    · rw [if_pos hinc] at hfq
      injection hfq with hfq
      have hpr : 2 ≤ q.priority := by
        rw [← hfq]
        exact hp pair.2 (snd_mem_of_mem_enum hpair)
      have henvp : (envProvider e k).priority = 1 := rfl
      rw [providerCmp, henvp]
      rw [if_pos (by omega)]
      omega
    · rw [if_neg hinc] at hfq
      cases hfq
  rw [getAvailableProviders, henv, List.cons_append, List.nil_append]
  rw [sortByCmp_cons_of_min (envProvider e k) (adminCandidates (some cfgs) stats) hmin]
  rfl

/-- C4 witness: the amended statement evaluated with the environment key
set and one admin entry of priority 2. -/
theorem c4_env_ranks_first_when_admin_priorities_exceed_one_witness :
    (envProvider envWithKey "gk").priority = 1
    ∧ (getAvailableProviders envWithKey (some [cfgBeta]) []).head?
        = some (envProvider envWithKey "gk") :=
  c4_env_ranks_first_when_admin_priorities_exceed_one envWithKey "gk" [cfgBeta] []
    rfl (by decide) (by decide)

/-- C6 counterexample: with three candidates all of whose attempts fail,
the code attempts all three — the trace is `[failed, failed, failed]`,
never `[failed, skipped, skipped]`, and the outcome is the exhaustion
error, not a `Cancelled` tag.  `generateImageWithFallback` takes only the
prompt, so there is no cancellation signal that could alter this run. -/
theorem c6_three_candidates_no_skip_after_first_failure :
    ((generateImageWithFallback namedFail 0 envNone (some [cfgAlpha, cfgBeta, cfgGamma])
        []).1.attempts.map Attempt.success) = [false, false, false]
    ∧ (generateImageWithFallback namedFail 0 envNone (some [cfgAlpha, cfgBeta, cfgGamma])
        []).1.error = some "所有API提供商都失败了。最后错误: fail Gamma" := by
  refine ⟨rfl, rfl⟩

/-- C6 (amended): the orchestration accepts no cancellation signal; after a
failed attempt it always proceeds to the next candidate.  With a ranked
list of three candidates where attempt 1 fails, candidates 2 and 3 are both
attempted: when they too fail the trace is three `failed` entries — no
entry is ever `skipped` — and the outcome is the exhaustion error. -/
theorem c6_after_failure_remaining_candidates_attempted (adapter : Adapter) (now : Nat)
    (e : Env) (adminCfg : Option (List AdminApiConfig)) (stats : StatsMap)
    (p1 p2 p3 : APIProvider) (e1 e2 e3 : String)
    (hsplit : sortByCmp fallbackCmp (getAvailableProviders e adminCfg stats) = [p1, p2, p3])
    (h1 : tryProvider adapter p1 = Except.error e1)
    (h2 : tryProvider adapter p2 = Except.error e2)
    (h3 : tryProvider adapter p3 = Except.error e3) :
    (generateImageWithFallback adapter now e adminCfg stats).1.attempts
        = [failAttempt p1 e1, failAttempt p2 e2, failAttempt p3 e3]
    ∧ (∀ a ∈ (generateImageWithFallback adapter now e adminCfg stats).1.attempts,
        a.success = false)
    ∧ (generateImageWithFallback adapter now e adminCfg stats).1.error
        = some ("所有API提供商都失败了。最后错误: " ++ e3) := by
  have hne : getAvailableProviders e adminCfg stats ≠ [] := by
    intro hnil
    rw [getAvailableProviders] at hsplit
    rw [getAvailableProviders] at hnil
    rw [hnil] at hsplit
    cases hsplit
  have hrun : (generateImageWithFallback adapter now e adminCfg stats).1
      = (runAttempts adapter now [p1, p2, p3]
          { stats := stats, disabled := [] } [] none).1 := by
    rw [generateImageWithFallback, isEmpty_false_of_ne_nil hne]
    simp only [Bool.false_eq_true, if_false]
    rw [hsplit]
  have hres : (runAttempts adapter now [p1, p2, p3]
      { stats := stats, disabled := [] } [] none).1
      = { success := false, imageBuffer := none, provider := none
          error := some ("所有API提供商都失败了。最后错误: " ++ e3)
          attempts := [failAttempt p1 e1, failAttempt p2 e2, failAttempt p3 e3] } := by
    simp only [runAttempts, h1, h2, h3]
    simp
  rw [hrun, hres]
  refine ⟨rfl, ?_, rfl⟩
  intro a ha
  simp only [List.mem_cons, List.not_mem_nil, or_false] at ha
  rcases ha with ha | ha | ha <;> rw [ha] <;> rfl

/-- C6 witness: the amended statement evaluated on the concrete `Alpha`,
`Beta`, `Gamma` all-failing configuration. -/
theorem c6_after_failure_remaining_candidates_attempted_witness :
    (generateImageWithFallback namedFail 0 envNone (some [cfgAlpha, cfgBeta, cfgGamma])
        []).1.attempts
      = [failAttempt (adminProvider [] 0 cfgAlpha) "fail Alpha",
         failAttempt (adminProvider [] 1 cfgBeta) "fail Beta",
         failAttempt (adminProvider [] 2 cfgGamma) "fail Gamma"]
    ∧ (∀ a ∈ (generateImageWithFallback namedFail 0 envNone
          (some [cfgAlpha, cfgBeta, cfgGamma]) []).1.attempts, a.success = false)
    ∧ (generateImageWithFallback namedFail 0 envNone (some [cfgAlpha, cfgBeta, cfgGamma])
        []).1.error = some ("所有API提供商都失败了。最后错误: " ++ "fail Gamma") :=
  c6_after_failure_remaining_candidates_attempted namedFail 0 envNone
    (some [cfgAlpha, cfgBeta, cfgGamma]) []
    (adminProvider [] 0 cfgAlpha) (adminProvider [] 1 cfgBeta) (adminProvider [] 2 cfgGamma)
    "fail Alpha" "fail Beta" "fail Gamma" (by decide) (by decide) (by decide) (by decide)

/-- C7 counterexample: provider `G` has id `grok-G-0` and key `KEY`.  With
the exclusion list `["grok-G-0"]` — its id — `selectBestProvider` still
selects it, because the filter compares the exclusion list against the API
key, not the id; and the orchestrator, whose signature carries no exclusion
set at all, attempts it, so its display name appears in the trace. -/
theorem c7_excluded_id_still_selected_and_attempted :
    (selectBestProvider envNone (some [cfgGrok]) [] ["grok-G-0"]).map APIProvider.id
        = some "grok-G-0"
    ∧ ((generateImageWithFallback alwaysFail 0 envNone (some [cfgGrok]) []).1.attempts.map
          Attempt.provider) = ["G"] := by
  refine ⟨rfl, rfl⟩

/-- C7 (amended): the exclusion filter of `selectBestProvider` matches on a
provider's API key: any provider it returns has a key outside the exclusion
list, is enabled, and has fewer than three errors.  (Exclusion by id is not
implemented, and the fallback orchestrator applies no exclusion at all.) -/
theorem c7_selected_provider_key_not_excluded (e : Env)
    (adminCfg : Option (List AdminApiConfig)) (stats : StatsMap)
    (excludeKeys : List String) (p : APIProvider)
    (h : selectBestProvider e adminCfg stats excludeKeys = some p) :
    excludeKeys.contains p.key = false ∧ p.enabled = true ∧ p.errorCount.getD 0 < 3 := by
  rw [selectBestProvider] at h
  have hmem : p ∈ (getAvailableProviders e adminCfg stats).filter fun q =>
      !(excludeKeys.contains q.key) && q.enabled && decide (q.errorCount.getD 0 < 3) :=
    List.mem_of_mem_head? h
  have hpred := List.of_mem_filter hmem
  have h1 := (Bool.and_eq_true _ _).mp hpred
  have h2 := (Bool.and_eq_true _ _).mp h1.1
  refine ⟨?_, h2.2, of_decide_eq_true h1.2⟩
  have hnot := h2.1
  cases hcontains : excludeKeys.contains p.key
  · rfl
  · rw [hcontains] at hnot
    exact absurd hnot (by decide)

/-- C7 witness: the amended statement evaluated where `Alpha` is selected
under the exclusion list `["nope"]`. -/
theorem c7_selected_provider_key_not_excluded_witness :
    ["nope"].contains (adminProvider [] 0 cfgAlpha).key = false
    ∧ (adminProvider [] 0 cfgAlpha).enabled = true
    ∧ (adminProvider [] 0 cfgAlpha).errorCount.getD 0 < 3 :=
  c7_selected_provider_key_not_excluded envNone (some [cfgAlpha]) [] ["nope"]
    (adminProvider [] 0 cfgAlpha) (by decide)

/-- C8: an enabled admin entry with a non-blank name and key (witnessed by
a non-space character `ch` of the key) but a blank or missing endpoint or
model is still included in the candidate list of `getAvailableProviders`,
and the attempt against it fails in the shared pre-flight validation with
an invalid-provider-config message — uniformly for every adapter, i.e.
before any network call — and the fallback loop books that failure into the
trace and the health stats exactly like any other attempt failure. -/
theorem c8_malformed_admin_entry_included_then_rejected_preflight
    (e : Env) (cfgs : List AdminApiConfig) (stats : StatsMap)
    (i : Nat) (c : AdminApiConfig) (k : String) (ch : Char)
    (hmem : (i, c) ∈ cfgs.enum)
    (hen : c.enabled = true) (hname : (c.name == "") = false)
    (hkey : c.key = some k) (hch : ch ∈ k.data) (hsp : isSpaceChar ch = false)
    (hbad : (jsTrim (c.url.getD "")).length = 0 ∨ (jsTrim (c.model.getD "")).length = 0) :
    adminProvider stats i c ∈ getAvailableProviders e (some cfgs) stats
    ∧ ∃ msg, validateProviderConfig (adminProvider stats i c) = some msg
      ∧ (∀ adapter : Adapter,
          tryProvider adapter (adminProvider stats i c) = Except.error msg)
      ∧ ∀ (adapter : Adapter) (now : Nat) (rest : List APIProvider) (st : GenState)
          (attempts : List Attempt) (lastError : Option String),
          runAttempts adapter now (adminProvider stats i c :: rest) st attempts lastError
            = runAttempts adapter now rest (stateAfterFailure st (adminProvider stats i c) now)
                (attempts ++ [failAttempt (adminProvider stats i c) msg]) (some msg) := by
  have hm1 : ch ∈ (jsTrim k).data := mem_jsTrim_of_not_space hch hsp
  have hm2 : ch ∈ (jsTrim (jsTrim k)).data := mem_jsTrim_of_not_space hm1 hsp
  have hlen : 0 < (jsTrim k).length := List.length_pos.mpr (List.ne_nil_of_mem hm1)
  have hlen2 : 0 < (jsTrim (jsTrim k)).length := List.length_pos.mpr (List.ne_nil_of_mem hm2)
  have hkeyf : (adminProvider stats i c).key = jsTrim k := by
    simp [adminProvider, hkey]
  have hinc : adminIncluded c = true := by
    simp only [adminIncluded, hen, hname, hkey, Bool.not_false, Bool.true_and]
    exact decide_eq_true hlen
  have step : ∀ msg, validateProviderConfig (adminProvider stats i c) = some msg →
      (∀ adapter : Adapter,
        tryProvider adapter (adminProvider stats i c) = Except.error msg)
      ∧ ∀ (adapter : Adapter) (now : Nat) (rest : List APIProvider) (st : GenState)
          (attempts : List Attempt) (lastError : Option String),
          runAttempts adapter now (adminProvider stats i c :: rest) st attempts lastError
            = runAttempts adapter now rest (stateAfterFailure st (adminProvider stats i c) now)
                (attempts ++ [failAttempt (adminProvider stats i c) msg]) (some msg) := by
    intro msg hval
    have htry : ∀ adapter : Adapter,
        tryProvider adapter (adminProvider stats i c) = Except.error msg := by
      intro adapter
      rw [tryProvider, hval]
    refine ⟨htry, ?_⟩
    intro adapter now rest st attempts lastError
    rw [runAttempts, htry adapter]
  constructor
  · rw [getAvailableProviders]
    refine mem_sortByCmp.mpr (List.mem_append_right _ ?_)
    rw [adminCandidates]
    refine List.mem_filterMap.mpr ⟨(i, c), hmem, ?_⟩
    simp [hinc]
  · by_cases hurl : (jsTrim ((adminProvider stats i c).baseUrl.getD "")).length = 0
    · have hval : validateProviderConfig (adminProvider stats i c)
          = some ("提供商 " ++ (adminProvider stats i c).name ++ " 缺少基础URL") := by
        rw [validateProviderConfig, hkeyf]
        rw [if_neg (by omega), if_pos hurl]
      exact ⟨_, hval, (step _ hval).1, (step _ hval).2⟩
    · have hmod : (jsTrim ((adminProvider stats i c).model.getD "")).length = 0 := by
        rcases hbad with hb | hb
        · exact absurd hb hurl
        · exact hb
      have hval : validateProviderConfig (adminProvider stats i c)
          = some ("提供商 " ++ (adminProvider stats i c).name ++ " 缺少模型名称") := by
        rw [validateProviderConfig, hkeyf]
        rw [if_neg (by omega), if_neg hurl, if_pos hmod]
      exact ⟨_, hval, (step _ hval).1, (step _ hval).2⟩

/-- C8 witness: the theorem evaluated on the concrete model-less admin
entry `cfgNoModel`, with `ch = 'k'` witnessing its non-blank key. -/
theorem c8_malformed_admin_entry_included_then_rejected_preflight_witness :
    adminProvider [] 0 cfgNoModel ∈ getAvailableProviders envNone (some [cfgNoModel]) []
    ∧ ∃ msg, validateProviderConfig (adminProvider [] 0 cfgNoModel) = some msg
      ∧ (∀ adapter : Adapter,
          tryProvider adapter (adminProvider [] 0 cfgNoModel) = Except.error msg)
      ∧ ∀ (adapter : Adapter) (now : Nat) (rest : List APIProvider) (st : GenState)
          (attempts : List Attempt) (lastError : Option String),
          runAttempts adapter now (adminProvider [] 0 cfgNoModel :: rest) st attempts lastError
            = runAttempts adapter now rest
                (stateAfterFailure st (adminProvider [] 0 cfgNoModel) now)
                (attempts ++ [failAttempt (adminProvider [] 0 cfgNoModel) msg]) (some msg) :=
  c8_malformed_admin_entry_included_then_rejected_preflight envNone [cfgNoModel] []
    0 cfgNoModel "km" 'k' (by decide) rfl (by decide) rfl (by decide) (by decide)
    (Or.inr (by decide))

/-- C10: every entry of `getProviderStatuses` reports status `failed`
exactly when its error count is at least 3, `warning` exactly when the
count is strictly between 0 and 3, and `healthy` exactly when it is 0. -/
theorem c10_status_partition (e : Env) (adminCfg : Option (List AdminApiConfig))
    (stats : StatsMap) (entry : ProviderStatusEntry)
    (h : entry ∈ getProviderStatuses e adminCfg stats) :
    (entry.status = "failed" ↔ 3 ≤ entry.errorCount)
    ∧ (entry.status = "warning" ↔ 0 < entry.errorCount ∧ entry.errorCount < 3)
    ∧ (entry.status = "healthy" ↔ entry.errorCount = 0) := by
  rw [getProviderStatuses] at h
  obtain ⟨p, hp, rfl⟩ := List.mem_map.mp h
  dsimp only
  rw [getProviderStatus]
  by_cases h3 : p.errorCount.getD 0 ≥ 3
  · rw [if_pos h3]
    refine ⟨⟨fun _ => h3, fun _ => rfl⟩, ?_, ?_⟩
    · constructor
      · intro hx
        exact absurd hx (by decide)
      · intro hx
        exact absurd hx.2 (by omega)
    · constructor
      · intro hx
        exact absurd hx (by decide)
      · intro hx
        exact absurd hx (by omega)
  · rw [if_neg h3]
    by_cases h0 : p.errorCount.getD 0 > 0
    · rw [if_pos h0]
      refine ⟨?_, ⟨fun _ => ⟨h0, by omega⟩, fun _ => rfl⟩, ?_⟩
      · constructor
        · intro hx
          exact absurd hx (by decide)
        · intro hx
          exact absurd hx h3
      · constructor
        · intro hx
          exact absurd hx (by decide)
        · intro hx
          exact absurd hx (by omega)
    · rw [if_neg h0]
      refine ⟨?_, ?_, ⟨fun _ => by omega, fun _ => rfl⟩⟩
      · constructor
        · intro hx
          exact absurd hx (by decide)
        · intro hx
          exact absurd hx (by omega)
      · constructor
        · intro hx
          exact absurd hx (by decide)
        · intro hx
          exact absurd hx.1 h0

/-- C10 witness: the partition evaluated on the `failed` entry reported for
`cfgGrok` with three recorded errors. -/
theorem c10_status_partition_witness :
    (entryG.status = "failed" ↔ 3 ≤ entryG.errorCount)
    ∧ (entryG.status = "warning" ↔ 0 < entryG.errorCount ∧ entryG.errorCount < 3)
    ∧ (entryG.status = "healthy" ↔ entryG.errorCount = 0) :=
  c10_status_partition envNone (some [cfgGrok]) statsThreeErrors entryG (by decide)

end Chalkboard
